import Mathlib

/- Verification of the palo repository file be/src/rpc/dynamic_buffer.h
(class DynamicBuffer).

Shallow embedding conventions:

* A heap pointer is modelled as a region identifier (an Option Nat, with none
  standing for the null pointer) together with a byte offset into that region.
  The members ptr and mark always point into the region at base, so the
  structure stores their offsets (ptr - base and mark - base); the absolute
  C++ pointers are base + ptr and base + mark.
* The contents of the region at base are carried in the data field, a list of
  bytes (Nat, with values through 255 in real executions, unconstrained here)
  whose length is the number of bytes actually obtained from the call
  new uint8_t[n].  Bytes the program never wrote (uninitialised storage) are
  modelled as 0.
* Arithmetic on size_t is 64-bit (reduced % U64); the size member of the
  class is a uint32_t, so every store into it reduces % U32.
* Allocation and deallocation are made observable through an AllocState
  threaded through the operations that can run new or delete: next is the
  identifier handed to the next allocation, and freed records, most recent
  first, the identifiers passed to delete [].  A delete [] on a null base is
  a no-op and leaves freed unchanged.
* A memcpy into a region is modelled by memcpyList; writing past the end of
  the destination region is undefined behaviour in C++, modelled here by
  discarding the bytes that fall outside the region, and reading past the end
  of the source region is modelled by reading only the bytes that exist.
-/

namespace Palo

/-- Constant 2^32, the modulus of the uint32_t member size. -/
def U32 : Nat := 2 ^ 32

/-- Constant 2^64, the modulus of size_t arithmetic. -/
def U64 : Nat := 2 ^ 64

/-- Observable allocator state: next is the region identifier returned by the
next allocation, freed lists the region identifiers already passed to
delete [] (most recent first). -/
structure AllocState where
  next : Nat
  freed : List Nat

/-- Model of palo::DynamicBuffer: base, ptr and mark are the three uint8_t
pointer members (base as a region identifier, ptr and mark as offsets from
base), size is the uint32_t capacity member, own the ownership flag, and data
holds the contents of the region base points to (its length is the byte count
actually allocated for that region, which can exceed the recorded size after
uint32_t truncation). -/
structure DynamicBuffer where
  base : Option Nat
  data : List Nat
  ptr : Nat
  mark : Nat
  size : Nat
  own : Bool

/-- Model of memcpy(dst + off, src, src.length) inside a region whose bytes
are dst: bytes of src that would land beyond the end of the region are
dropped (an out-of-bounds write is undefined behaviour in the C++ source). -/
def memcpyList (dst src : List Nat) (off : Nat) : List Nat :=
  dst.take off ++ src.take (dst.length - off) ++ dst.drop (off + src.length)

namespace DynamicBuffer

/-- The constructor DynamicBuffer(initial_size, own_buffer): the member
initialiser size(initial_size) truncates to uint32_t, then
base = ptr = mark = new uint8_t[size] runs only when the (truncated) size is
non-zero, else all three pointers are null. -/
def init (initial_size : Nat) (own_buffer : Bool) (s : AllocState) :
    DynamicBuffer × AllocState :=
  let sz := initial_size % U32
  if sz ≠ 0 then
    ({ base := some s.next, data := List.replicate sz 0, ptr := 0, mark := 0,
       size := sz, own := own_buffer },
     { next := s.next + 1, freed := s.freed })
  else
    ({ base := none, data := [], ptr := 0, mark := 0, size := sz,
       own := own_buffer }, s)

/-- Model of remaining(), i.e. size - (ptr - base): the uint32_t is promoted
and the subtraction performed in 64 bits, then converted to size_t, so a
cursor past the recorded size wraps around 2^64. -/
def remaining (b : DynamicBuffer) : Nat :=
  (b.size + U64 - b.ptr) % U64

/-- Model of fill(), i.e. ptr - base: the used length. -/
def fill (b : DynamicBuffer) : Nat := b.ptr

/-- Model of empty(), i.e. ptr == base. -/
def empty (b : DynamicBuffer) : Bool := b.ptr == 0

/-- Model of grow(new_size, nocopy): allocate a fresh region of new_size
bytes, copy the used prefix unless nocopy is set or base is null, keep the
offsets of ptr and mark, run delete [] base only when owning, then point base
at the new region and store new_size into the uint32_t member size
(truncating).  The own flag is left untouched by the source. -/
def grow (b : DynamicBuffer) (s : AllocState) (new_size : Nat) (nocopy : Bool) :
    DynamicBuffer × AllocState :=
  let new_buf := List.replicate new_size 0
  let new_buf :=
    if !nocopy && b.base.isSome then memcpyList new_buf (b.data.take b.ptr) 0
    else new_buf
  let freed :=
    if b.own then
      match b.base with
      | some r => r :: s.freed
      | none => s.freed
    else s.freed
  ({ base := some s.next, data := new_buf, ptr := b.ptr, mark := b.mark,
     size := new_size % U32, own := b.own },
   { next := s.next + 1, freed := freed })

/-- Model of ensure(len): grow to (fill() + len) * 3 / 2 (computed in size_t)
when len exceeds remaining(). -/
def ensure (b : DynamicBuffer) (s : AllocState) (len : Nat) :
    DynamicBuffer × AllocState :=
  if len > remaining b then
    grow b s ((b.ptr + len) % U64 * 3 % U64 / 2) false
  else (b, s)

/-- Model of reserve(len, nocopy): grow to exactly fill() + len (computed in
size_t) when len exceeds remaining(). -/
def reserve (b : DynamicBuffer) (s : AllocState) (len : Nat) (nocopy : Bool) :
    DynamicBuffer × AllocState :=
  if len > remaining b then
    grow b s ((b.ptr + len) % U64) nocopy
  else (b, s)

/-- Model of add_unchecked(data, len): a null data pointer returns null at
once, with nothing changed; otherwise memcpy(ptr, data, len) writes len bytes
read from data at the cursor, the cursor advances by len, and the old cursor
(base paired with the old offset) is returned. -/
def add_unchecked (b : DynamicBuffer) (data : Option (List Nat)) (len : Nat) :
    DynamicBuffer × Option (Option Nat × Nat) :=
  match data with
  | none => (b, none)
  | some xs =>
      ({ b with data := memcpyList b.data (xs.take len) b.ptr,
                ptr := b.ptr + len },
       some (b.base, b.ptr))

/-- Model of add(data, len): ensure(len) then add_unchecked(data, len). -/
def add (b : DynamicBuffer) (s : AllocState) (data : Option (List Nat))
    (len : Nat) : (DynamicBuffer × AllocState) × Option (Option Nat × Nat) :=
  let bs := ensure b s len
  let r := add_unchecked bs.1 data len
  ((r.1, bs.2), r.2)

/-- Model of clear(): ptr = base, i.e. the cursor offset becomes 0.  The mark
member is not touched. -/
def clear (b : DynamicBuffer) : DynamicBuffer :=
  { b with ptr := 0 }

/-- Model of set_mark(): mark = ptr. -/
def set_mark (b : DynamicBuffer) : DynamicBuffer :=
  { b with mark := b.ptr }

/-- Model of set(data, len): clear(), reserve(len) (with the default
nocopy = false), then add_unchecked(data, len). -/
def set (b : DynamicBuffer) (s : AllocState) (data : Option (List Nat))
    (len : Nat) : DynamicBuffer × AllocState :=
  let b1 := clear b
  let bs := reserve b1 s len false
  ((add_unchecked bs.1 data len).1, bs.2)

/-- Model of free(): delete [] base when owning, then null out the three
pointers and zero size. -/
def free (b : DynamicBuffer) (s : AllocState) : DynamicBuffer × AllocState :=
  let freed :=
    if b.own then
      match b.base with
      | some r => r :: s.freed
      | none => s.freed
    else s.freed
  ({ base := none, data := [], ptr := 0, mark := 0, size := 0, own := b.own },
   { next := s.next, freed := freed })

/-- Model of release(lenp): return base (and fill() through lenp when that
out-parameter is supplied), then null out the three pointers and zero size
without any delete.  The triple is (returned pointer, value stored through
lenp, buffer afterwards); the allocator state is not even an input because
release neither allocates nor frees. -/
def release (b : DynamicBuffer) (lenp : Bool) :
    Option Nat × Option Nat × DynamicBuffer :=
  (b.base,
   if lenp then some (fill b) else none,
   { base := none, data := [], ptr := 0, mark := 0, size := 0, own := b.own })

/-- Model of the destructor: delete [] base when owning (a no-op on a null
base). -/
def dtor (b : DynamicBuffer) (s : AllocState) : AllocState :=
  if b.own then
    match b.base with
    | some r => { s with freed := r :: s.freed }
    | none => s
  else s

/-- Repeated checked appends: fold add over a list of byte arrays, each
passed with its own length and a non-null pointer, discarding the returned
pointers. -/
def appendAll (b : DynamicBuffer) (s : AllocState) (chunks : List (List Nat)) :
    DynamicBuffer × AllocState :=
  match chunks with
  | [] => (b, s)
  | xs :: rest =>
      let r := add b s (some xs) xs.length
      appendAll r.1.1 r.1.2 rest

/-- Well-formedness of a buffer state, established by the constructor and
preserved by every operation while no uint32_t truncation occurs: the cursor
lies within the recorded size, the recorded size never exceeds the bytes
actually allocated, it fits in uint32_t, and a null base goes with size 0. -/
def WF (b : DynamicBuffer) : Prop :=
  b.ptr ≤ b.size ∧ b.size ≤ b.data.length ∧ b.size < U32 ∧
    (b.base = none → b.size = 0)

end DynamicBuffer

open DynamicBuffer

/-- Buffer state reachable by constructing with initial_size 4294967295 and
advancing the cursor by 4294967294 appended bytes; used to exhibit the
uint32_t truncation of the capacity in the next call to ensure. -/
def C8bad : DynamicBuffer :=
  { base := some 0, data := List.replicate 4294967295 0, ptr := 4294967294,
    mark := 0, size := 4294967295, own := true }

/-- State after appending 4294967296 zero bytes to a fresh empty buffer:
ensure grew the region to 6442450944 actual bytes but recorded only
6442450944 % 2^32 = 2147483648 in the uint32_t size member. -/
def C2buf1 : DynamicBuffer :=
  ⟨some 0, memcpyList (List.replicate 6442450944 0)
      ((List.replicate 4294967296 (0 : Nat)).take 4294967296) 0,
    4294967296, 0, 2147483648, true⟩

/-- State after then appending 3000000000 one bytes: remaining() wrapped
around 2^64, so no growth happened and the memcpy ran past the end of the
6442450944-byte region while the cursor advanced to 7294967296. -/
def C2buf2 : DynamicBuffer :=
  ⟨some 0, memcpyList C2buf1.data
      ((List.replicate 3000000000 (1 : Nat)).take 3000000000) 4294967296,
    7294967296, 0, 2147483648, true⟩

lemma U32_eq : U32 = 4294967296 := rfl

lemma U64_eq : U64 = 18446744073709551616 := rfl

lemma le_three_halves (x : Nat) : x ≤ x * 3 / 2 :=
  (Nat.le_div_iff_mul_le (by decide)).2 (Nat.mul_le_mul_left x (by decide))

lemma memcpyList_length (dst src : List Nat) (off : Nat) :
    (memcpyList dst src off).length = dst.length := by
  unfold memcpyList
  rw [List.length_append, List.length_append, List.length_take,
    List.length_take, List.length_drop]
  rcases Nat.le_total off dst.length with hoff | hoff
  · rw [Nat.min_eq_left hoff]
    rcases Nat.le_total src.length (dst.length - off) with hs | hs
    · have hab : off + src.length ≤ dst.length := by
        rw [Nat.add_comm]
        exact Nat.add_le_of_le_sub hoff hs
      rw [Nat.min_eq_right hs, Nat.add_sub_cancel' hab]
    · have hba : dst.length ≤ off + src.length := by
        rw [Nat.add_comm]
        exact Nat.sub_le_iff_le_add.1 hs
      rw [Nat.min_eq_left hs, Nat.sub_eq_zero_of_le hba, Nat.add_zero,
        Nat.add_sub_cancel' hoff]
  · rw [Nat.min_eq_right hoff, Nat.sub_eq_zero_of_le hoff,
      Nat.sub_eq_zero_of_le (Nat.le_trans hoff (Nat.le_add_right off _)),
      Nat.zero_min]
    rfl

lemma U32_lt_U64 : U32 < U64 := by decide

lemma remaining_eq (b : DynamicBuffer) (h1 : b.ptr ≤ b.size) (h2 : b.size < U32) :
    remaining b = b.size - b.ptr := by
  unfold remaining
  rw [Nat.sub_add_comm h1, Nat.add_mod_right]
  exact Nat.mod_eq_of_lt (lt_trans (Nat.lt_of_le_of_lt (Nat.sub_le _ _) h2) U32_lt_U64)

lemma take_len_append (A B C : List Nat) :
    (A ++ B ++ C).take (A.length + B.length) = A ++ B := by
  rw [List.take_append_eq_append_take, ← List.length_append, List.take_length,
    Nat.sub_self, List.take_zero, List.append_nil]

lemma take_memcpyList (dst src : List Nat) (off : Nat)
    (h2 : off + src.length ≤ dst.length) :
    (memcpyList dst src off).take (off + src.length) = dst.take off ++ src := by
  have hoff : off ≤ dst.length := Nat.le_trans (Nat.le_add_right off _) h2
  unfold memcpyList
  have e1 : src.take (dst.length - off) = src :=
    List.take_of_length_le (Nat.le_sub_of_add_le (by rw [Nat.add_comm]; exact h2))
  rw [e1]
  have e2 : (dst.take off).length = off := by
    rw [List.length_take]
    exact Nat.min_eq_left hoff
  have h := take_len_append (dst.take off) src (dst.drop (off + src.length))
  rw [e2] at h
  exact h

lemma grow_size_eq (b : DynamicBuffer) (s : AllocState) (m : Nat) (nc : Bool) :
    ((grow b s m nc).1).size = m % U32 := rfl

lemma grow_ptr_eq (b : DynamicBuffer) (s : AllocState) (m : Nat) (nc : Bool) :
    ((grow b s m nc).1).ptr = b.ptr := rfl

lemma grow_base_eq (b : DynamicBuffer) (s : AllocState) (m : Nat) (nc : Bool) :
    ((grow b s m nc).1).base = some s.next := rfl

lemma grow_data_eq (b : DynamicBuffer) (s : AllocState) (m : Nat) (nc : Bool) :
    ((grow b s m nc).1).data =
      if !nc && b.base.isSome then
        memcpyList (List.replicate m 0) (b.data.take b.ptr) 0
      else List.replicate m 0 := rfl

lemma grow_data_length (b : DynamicBuffer) (s : AllocState) (m : Nat) (nc : Bool) :
    ((grow b s m nc).1).data.length = m := by
  rw [grow_data_eq]
  cases h : (!nc && b.base.isSome)
  · rw [if_neg Bool.false_ne_true, List.length_replicate]
  · rw [if_pos (rfl : (true : Bool) = true), memcpyList_length,
      List.length_replicate]

lemma grow_take (b : DynamicBuffer) (s : AllocState) (m : Nat)
    (hp : b.ptr ≤ m) (hd : b.ptr ≤ b.data.length)
    (hb : b.base = none → b.ptr = 0) :
    ((grow b s m false).1).data.take b.ptr = b.data.take b.ptr := by
  cases hbase : b.base with
  | none =>
      rw [hb hbase, List.take_zero, List.take_zero]
  | some r =>
      rw [grow_data_eq, hbase,
        if_pos (show (!false && (some r).isSome) = true from rfl)]
      have hsl : (b.data.take b.ptr).length = b.ptr := by
        rw [List.length_take]
        exact Nat.min_eq_left hd
      have h := take_memcpyList (List.replicate m 0) (b.data.take b.ptr) 0
        (by rw [List.length_replicate, hsl, Nat.zero_add]; exact hp)
      rw [hsl, Nat.zero_add, List.take_zero, List.nil_append] at h
      exact h

lemma ensure_grow_amount (x : Nat) (h : x * 3 / 2 < U32) :
    x % U64 * 3 % U64 / 2 = x * 3 / 2 := by
  have h3 : x * 3 < U64 := by
    rw [U32_eq] at h
    rw [U64_eq]
    exact Nat.lt_trans ((Nat.div_lt_iff_lt_mul (by decide)).1 h) (by decide)
  have e1 : x % U64 = x :=
    Nat.mod_eq_of_lt (Nat.lt_of_le_of_lt (Nat.le_mul_of_pos_right x (by decide)) h3)
  rw [e1, Nat.mod_eq_of_lt h3]

lemma ensure_of_le (b : DynamicBuffer) (s : AllocState) (len : Nat)
    (h : ¬ len > remaining b) : ensure b s len = (b, s) := by
  unfold ensure
  rw [if_neg h]

lemma ensure_of_gt (b : DynamicBuffer) (s : AllocState) (len : Nat)
    (h : len > remaining b) :
    ensure b s len = grow b s ((b.ptr + len) % U64 * 3 % U64 / 2) false := by
  unfold ensure
  rw [if_pos h]

lemma ensure_size_ge (b : DynamicBuffer) (s : AllocState) (len : Nat)
    (h1 : b.ptr ≤ b.size) (h2 : b.size < U32)
    (h3 : (b.ptr + len) * 3 / 2 < U32) :
    b.size ≤ ((ensure b s len).1).size := by
  unfold ensure
  by_cases h : len > remaining b
  · rw [if_pos h, grow_size_eq, ensure_grow_amount _ h3,
      Nat.mod_eq_of_lt h3]
    rw [remaining_eq b h1 h2] at h
    exact Nat.le_trans (Nat.le_of_lt ((Nat.sub_lt_iff_lt_add h1).1 h))
      (Nat.add_comm len b.ptr ▸ le_three_halves (b.ptr + len))
  · rw [if_neg h]

lemma reserve_size_ge (b : DynamicBuffer) (s : AllocState) (len : Nat) (nc : Bool)
    (h1 : b.ptr ≤ b.size) (h2 : b.size < U32) (h3 : b.ptr + len < U32) :
    b.size ≤ ((reserve b s len nc).1).size := by
  unfold reserve
  by_cases h : len > remaining b
  · rw [if_pos h, grow_size_eq,
      Nat.mod_eq_of_lt (Nat.lt_trans h3 U32_lt_U64), Nat.mod_eq_of_lt h3]
    rw [remaining_eq b h1 h2] at h
    exact Nat.le_of_lt (Nat.add_comm len b.ptr ▸ (Nat.sub_lt_iff_lt_add h1).1 h)
  · rw [if_neg h]

lemma add_state_eq (b : DynamicBuffer) (s : AllocState) (data : Option (List Nat))
    (len : Nat) :
    (add b s data len).1.1 = (add_unchecked (ensure b s len).1 data len).1 := rfl

lemma add_size_eq (b : DynamicBuffer) (s : AllocState) (data : Option (List Nat))
    (len : Nat) : ((add b s data len).1.1).size = ((ensure b s len).1).size := by
  cases data <;> rfl

lemma add_base_eq (b : DynamicBuffer) (s : AllocState) (data : Option (List Nat))
    (len : Nat) : ((add b s data len).1.1).base = ((ensure b s len).1).base := by
  cases data <;> rfl

lemma add_alloc_eq (b : DynamicBuffer) (s : AllocState) (data : Option (List Nat))
    (len : Nat) : (add b s data len).1.2 = (ensure b s len).2 := by
  cases data <;> rfl

lemma set_size_eq (b : DynamicBuffer) (s : AllocState) (data : Option (List Nat))
    (len : Nat) :
    ((set b s data len).1).size = ((reserve (clear b) s len false).1).size := by
  cases data <;> rfl

lemma add_unchecked_ptr (b : DynamicBuffer) (xs : List Nat) (len : Nat) :
    ((add_unchecked b (some xs) len).1).ptr = b.ptr + len := rfl

lemma add_unchecked_size (b : DynamicBuffer) (xs : List Nat) (len : Nat) :
    ((add_unchecked b (some xs) len).1).size = b.size := rfl

lemma add_unchecked_base (b : DynamicBuffer) (xs : List Nat) (len : Nat) :
    ((add_unchecked b (some xs) len).1).base = b.base := rfl

lemma add_unchecked_data_length (b : DynamicBuffer) (xs : List Nat) (len : Nat) :
    ((add_unchecked b (some xs) len).1).data.length = b.data.length := by
  unfold add_unchecked
  exact memcpyList_length _ _ _

lemma add_unchecked_take (b : DynamicBuffer) (xs : List Nat)
    (hfits : b.ptr + xs.length ≤ b.data.length) :
    ((add_unchecked b (some xs) xs.length).1).data.take (b.ptr + xs.length) =
      b.data.take b.ptr ++ xs := by
  unfold add_unchecked
  simp only [List.take_length]
  exact take_memcpyList b.data xs b.ptr hfits

lemma add_unchecked_grow_spec (b : DynamicBuffer) (s : AllocState) (xs : List Nat)
    (m : Nat) (w1 : b.ptr ≤ b.size) (w2 : b.size ≤ b.data.length)
    (w4 : b.base = none → b.size = 0)
    (hm32 : m < U32) (hfit : b.ptr + xs.length ≤ m) :
    WF ((add_unchecked (grow b s m false).1 (some xs) xs.length).1) ∧
    ((add_unchecked (grow b s m false).1 (some xs) xs.length).1).ptr =
      b.ptr + xs.length ∧
    ((add_unchecked (grow b s m false).1 (some xs) xs.length).1).data.take
      (b.ptr + xs.length) = b.data.take b.ptr ++ xs := by
  have hgsize : ((grow b s m false).1).size = m := by
    rw [grow_size_eq]
    exact Nat.mod_eq_of_lt hm32
  have hglen := grow_data_length b s m false
  have hgptr := grow_ptr_eq b s m false
  have hgtake := grow_take b s m (Nat.le_trans (Nat.le_add_right _ _) hfit)
    (Nat.le_trans w1 w2) (fun hn => Nat.le_zero.mp (w4 hn ▸ w1))
  refine ⟨⟨?_, ?_, ?_, ?_⟩, ?_, ?_⟩
  · rw [add_unchecked_ptr, add_unchecked_size, hgptr, hgsize]
    exact hfit
  · rw [add_unchecked_size, add_unchecked_data_length, hgsize, hglen]
  · rw [add_unchecked_size, hgsize]
    exact hm32
  · rw [add_unchecked_base, grow_base_eq]
    intro hn
    cases hn
  · rw [add_unchecked_ptr, hgptr]
  · have h := add_unchecked_take ((grow b s m false).1) xs
      (by rw [hgptr, hglen]; exact hfit)
    rw [hgptr, hgtake] at h
    exact h

lemma add_step (b : DynamicBuffer) (s : AllocState) (xs : List Nat)
    (hwf : WF b) (hb : (b.ptr + xs.length) * 3 / 2 < U32) :
    WF ((add b s (some xs) xs.length).1.1) ∧
    ((add b s (some xs) xs.length).1.1).ptr = b.ptr + xs.length ∧
    ((add b s (some xs) xs.length).1.1).data.take (b.ptr + xs.length) =
      b.data.take b.ptr ++ xs := by
  obtain ⟨w1, w2, w3, w4⟩ := hwf
  rw [add_state_eq]
  by_cases h : xs.length > remaining b
  · rw [ensure_of_gt b s xs.length h, ensure_grow_amount _ hb]
    exact add_unchecked_grow_spec b s xs ((b.ptr + xs.length) * 3 / 2)
      w1 w2 w4 hb (le_three_halves _)
  · rw [ensure_of_le b s xs.length h]
    rw [remaining_eq b w1 w3] at h
    have hsz : b.ptr + xs.length ≤ b.size := by
      rw [Nat.add_comm]
      exact Nat.add_le_of_le_sub w1 (Nat.not_lt.1 h)
    have hfits : b.ptr + xs.length ≤ b.data.length := Nat.le_trans hsz w2
    refine ⟨⟨?_, ?_, ?_, ?_⟩, add_unchecked_ptr b xs xs.length,
      add_unchecked_take b xs hfits⟩
    · exact hsz
    · rw [add_unchecked_size, add_unchecked_data_length]
      exact w2
    · rw [add_unchecked_size]
      exact w3
    · rw [add_unchecked_base, add_unchecked_size]
      exact w4

lemma init_WF (n : Nat) (ob : Bool) (s : AllocState) : WF ((init n ob s).1) := by
  have hmod : n % U32 < U32 := Nat.mod_lt _ (by rw [U32_eq]; norm_num)
  unfold init WF
  by_cases h : n % U32 ≠ 0
  · rw [if_pos h]
    exact ⟨Nat.zero_le _, Nat.le_of_eq (List.length_replicate _ _).symm, hmod,
      fun hn => Option.noConfusion hn⟩
  · rw [if_neg h]
    push_neg at h
    exact ⟨Nat.zero_le _, Nat.le_of_eq h, hmod, fun _ => h⟩

lemma appendAll_unfold (b : DynamicBuffer) (s : AllocState) (xs : List Nat)
    (rest : List (List Nat)) :
    appendAll b s (xs :: rest) =
      appendAll (add b s (some xs) xs.length).1.1
        (add b s (some xs) xs.length).1.2 rest := rfl

lemma appendAll_spec (chunks : List (List Nat)) :
    ∀ b s, WF b → (b.ptr + (chunks.map List.length).sum) * 3 / 2 < U32 →
      WF ((appendAll b s chunks).1) ∧
      ((appendAll b s chunks).1).ptr = b.ptr + (chunks.map List.length).sum ∧
      ((appendAll b s chunks).1).data.take ((appendAll b s chunks).1).ptr =
        b.data.take b.ptr ++ chunks.flatten := by
  induction chunks with
  | nil =>
      intro b s hwf hb
      exact ⟨hwf, rfl, (List.append_nil _).symm⟩
  | cons xs rest ih =>
      intro b s hwf hb
      rw [List.map_cons, List.sum_cons] at hb
      have hmono : (b.ptr + xs.length) * 3 / 2 < U32 :=
        Nat.lt_of_le_of_lt
          (Nat.div_le_div_right (Nat.mul_le_mul_right 3
            (Nat.add_le_add_left (Nat.le_add_right _ _) b.ptr))) hb
      obtain ⟨hwf1, hptr1, htake1⟩ := add_step b s xs hwf hmono
      rw [appendAll_unfold]
      have hb1 : (((add b s (some xs) xs.length).1.1).ptr +
          (rest.map List.length).sum) * 3 / 2 < U32 := by
        rw [hptr1, Nat.add_assoc]
        exact hb
      obtain ⟨hwf2, hptr2, htake2⟩ :=
        ih (add b s (some xs) xs.length).1.1 (add b s (some xs) xs.length).1.2
          hwf1 hb1
      refine ⟨hwf2, ?_, ?_⟩
      · rw [hptr2, hptr1, List.map_cons, List.sum_cons, Nat.add_assoc]
      · rw [htake2, hptr1, htake1, List.flatten_cons, List.append_assoc]

/-- C1 counterexample: a buffer constructed with ownership disabled
(initial_size 1, own_buffer false) and then grown does NOT become an owner of
the newly allocated region: the own flag is still false after grow, grow
freed nothing, and the destructor frees nothing either (the freed list stays
empty), contradicting the claim that destruction frees the new region. -/
theorem C1_counterexample :
    ((grow ((init 1 false ⟨0, []⟩).1) ((init 1 false ⟨0, []⟩).2) 2 false).1).own = false ∧
    ((grow ((init 1 false ⟨0, []⟩).1) ((init 1 false ⟨0, []⟩).2) 2 false).2).freed = [] ∧
    (dtor ((grow ((init 1 false ⟨0, []⟩).1) ((init 1 false ⟨0, []⟩).2) 2 false).1)
      ((grow ((init 1 false ⟨0, []⟩).1) ((init 1 false ⟨0, []⟩).2) 2 false).2)).freed = [] := by
  decide

/-- C1 (amended): grow leaves the ownership flag unchanged, and for a buffer
whose ownership is disabled, growth frees nothing and a subsequent
destruction also frees nothing: neither the newly allocated region nor the
original externally supplied region is ever freed by this instance (the
original stays unfreed as the claim says, but the new region is leaked
rather than owned). -/
theorem C1_grow_keeps_own (b : DynamicBuffer) (s : AllocState) (new_size : Nat)
    (nocopy : Bool) :
    ((grow b s new_size nocopy).1).own = b.own ∧
    (b.own = false →
      ((grow b s new_size nocopy).2).freed = s.freed ∧
      dtor ((grow b s new_size nocopy).1) ((grow b s new_size nocopy).2) =
        (grow b s new_size nocopy).2) := by
  refine ⟨rfl, fun h => ?_⟩
  obtain ⟨base, data, ptr, mark, size, own⟩ := b
  rw [show own = false from h]
  exact ⟨rfl, rfl⟩

/-- C1 witness: the amended statement instantiated at the concrete non-owning
buffer constructed with initial_size 3 and grown to 5 bytes. -/
theorem C1_grow_keeps_own_witness :
    ((grow ((init 3 false ⟨0, []⟩).1) ((init 3 false ⟨0, []⟩).2) 5 false).1).own =
      ((init 3 false ⟨0, []⟩).1).own ∧
    (((init 3 false ⟨0, []⟩).1).own = false →
      ((grow ((init 3 false ⟨0, []⟩).1) ((init 3 false ⟨0, []⟩).2) 5 false).2).freed =
        ((init 3 false ⟨0, []⟩).2).freed ∧
      dtor ((grow ((init 3 false ⟨0, []⟩).1) ((init 3 false ⟨0, []⟩).2) 5 false).1)
        ((grow ((init 3 false ⟨0, []⟩).1) ((init 3 false ⟨0, []⟩).2) 5 false).2) =
        (grow ((init 3 false ⟨0, []⟩).1) ((init 3 false ⟨0, []⟩).2) 5 false).2) :=
  C1_grow_keeps_own _ _ 5 false

/-- C2 (amended): starting from a freshly constructed buffer, after N checked
appends of byte arrays (non-null data, each passed with its own length) whose
total length L satisfies L * 3 / 2 < 2^32 (so the uint32_t size member never
truncates), used_length() equals the sum of the appended lengths and the
bytes in the used region reproduce the concatenation of the appended arrays
in call order. -/
theorem C2_append_concat (initial_size : Nat) (own_buffer : Bool) (s : AllocState)
    (chunks : List (List Nat))
    (hbound : ((chunks.map List.length).sum) * 3 / 2 < U32) :
    fill ((appendAll ((init initial_size own_buffer s).1)
        ((init initial_size own_buffer s).2) chunks).1) =
      (chunks.map List.length).sum ∧
    ((appendAll ((init initial_size own_buffer s).1)
        ((init initial_size own_buffer s).2) chunks).1).data.take
      (fill ((appendAll ((init initial_size own_buffer s).1)
          ((init initial_size own_buffer s).2) chunks).1)) = chunks.flatten := by
  have hwf := init_WF initial_size own_buffer s
  have hptr0 : ((init initial_size own_buffer s).1).ptr = 0 := by
    unfold init
    by_cases h : initial_size % U32 ≠ 0
    · rw [if_pos h]
    · rw [if_neg h]
  have hb : (((init initial_size own_buffer s).1).ptr +
      (chunks.map List.length).sum) * 3 / 2 < U32 := by
    rw [hptr0, Nat.zero_add]
    exact hbound
  obtain ⟨hwf2, hptr, htake⟩ := appendAll_spec chunks _ _ hwf hb
  rw [hptr0, Nat.zero_add] at hptr
  rw [hptr0, List.take_zero, List.nil_append] at htake
  exact ⟨hptr, htake⟩

/-- C2 witness: the amended statement instantiated with the two appends
[1, 2] and [3, 4, 5] into a freshly constructed empty buffer. -/
theorem C2_append_concat_witness :
    ((([[1, 2], [3, 4, 5]] : List (List Nat)).map List.length).sum) * 3 / 2 < U32 ∧
    (fill ((appendAll ((init 0 true ⟨0, []⟩).1) ((init 0 true ⟨0, []⟩).2)
        [[1, 2], [3, 4, 5]]).1) =
      (([[1, 2], [3, 4, 5]] : List (List Nat)).map List.length).sum ∧
    ((appendAll ((init 0 true ⟨0, []⟩).1) ((init 0 true ⟨0, []⟩).2)
        [[1, 2], [3, 4, 5]]).1).data.take
      (fill ((appendAll ((init 0 true ⟨0, []⟩).1) ((init 0 true ⟨0, []⟩).2)
          [[1, 2], [3, 4, 5]]).1)) =
      ([[1, 2], [3, 4, 5]] : List (List Nat)).flatten) :=
  ⟨by decide, C2_append_concat 0 true ⟨0, []⟩ [[1, 2], [3, 4, 5]] (by decide)⟩

/-- C2 counterexample: appending 4294967296 zero bytes and then 3000000000
one bytes to a fresh empty buffer refutes the unrestricted claim.  The first
append grows the region to 6442450944 bytes but the uint32_t size member
records only 2147483648; remaining() then wraps around 2^64, the second
append therefore triggers no growth and runs off the end of the region, and
reading back the used region no longer yields the concatenation (the sum
conjunct still holds, the readback conjunct fails). -/
theorem C2_counterexample :
    ¬ (fill ((appendAll ((init 0 true ⟨0, []⟩).1) ((init 0 true ⟨0, []⟩).2)
          [List.replicate 4294967296 0, List.replicate 3000000000 1]).1) =
        (([List.replicate 4294967296 (0 : Nat),
           List.replicate 3000000000 1].map List.length).sum) ∧
      ((appendAll ((init 0 true ⟨0, []⟩).1) ((init 0 true ⟨0, []⟩).2)
          [List.replicate 4294967296 0, List.replicate 3000000000 1]).1).data.take
        (fill ((appendAll ((init 0 true ⟨0, []⟩).1) ((init 0 true ⟨0, []⟩).2)
            [List.replicate 4294967296 0, List.replicate 3000000000 1]).1)) =
        ([List.replicate 4294967296 (0 : Nat),
          List.replicate 3000000000 1] : List (List Nat)).flatten) := by
  intro hcl
  have e1a : (add ((init 0 true ⟨0, []⟩).1) ((init 0 true ⟨0, []⟩).2)
      (some (List.replicate 4294967296 (0 : Nat))) 4294967296).1.1 = C2buf1 := rfl
  have e1b : (add ((init 0 true ⟨0, []⟩).1) ((init 0 true ⟨0, []⟩).2)
      (some (List.replicate 4294967296 (0 : Nat))) 4294967296).1.2 =
      (⟨1, []⟩ : AllocState) := rfl
  have e2a : (add C2buf1 (⟨1, []⟩ : AllocState)
      (some (List.replicate 3000000000 (1 : Nat))) 3000000000).1.1 = C2buf2 := rfl
  have e2b : (add C2buf1 (⟨1, []⟩ : AllocState)
      (some (List.replicate 3000000000 (1 : Nat))) 3000000000).1.2 =
      (⟨1, []⟩ : AllocState) := rfl
  have hfin : (appendAll ((init 0 true ⟨0, []⟩).1) ((init 0 true ⟨0, []⟩).2)
      [List.replicate 4294967296 0, List.replicate 3000000000 1]).1 = C2buf2 := by
    rw [appendAll_unfold, List.length_replicate, e1a, e1b]
    rw [appendAll_unfold, List.length_replicate, e2a, e2b]
    rfl
  have h2 := hcl.2
  rw [hfin] at h2
  have efill : fill C2buf2 = 7294967296 := rfl
  rw [efill] at h2
  have hlen := congrArg List.length h2
  have edlen : C2buf2.data.length = 6442450944 := by
    show (memcpyList C2buf1.data
      ((List.replicate 3000000000 (1 : Nat)).take 3000000000) 4294967296).length =
      6442450944
    rw [memcpyList_length]
    show (memcpyList (List.replicate 6442450944 0)
      ((List.replicate 4294967296 (0 : Nat)).take 4294967296) 0).length = 6442450944
    rw [memcpyList_length, List.length_replicate]
  rw [List.length_take, edlen] at hlen
  rw [show ([List.replicate 4294967296 (0 : Nat),
      List.replicate 3000000000 1] : List (List Nat)).flatten =
      List.replicate 4294967296 (0 : Nat) ++
        (List.replicate 3000000000 (1 : Nat) ++ []) from rfl] at hlen
  rw [List.length_append, List.length_append, List.length_replicate,
    List.length_replicate] at hlen
  have hmin : (7294967296 : Nat) ⊓ 6442450944 = 6442450944 := by
    rw [Nat.min_def]
    rfl
  rw [hmin] at hlen
  exact absurd hlen (by decide)

/-- C3 (amended): when the growth amount does not overflow uint32_t, i.e.
(used_length() + len) * 3 / 2 < 2^32, a call ensure(len) that finds the free
space insufficient leaves the capacity exactly equal to
(used_length() + len) * 3 / 2 (integer division rounding down) and at least
used_length() + len; when the free space suffices the whole state is
unchanged. -/
theorem C3_ensure_growth (b : DynamicBuffer) (s : AllocState) (len : Nat)
    (h3 : (b.ptr + len) * 3 / 2 < U32) :
    (len > remaining b →
      ((ensure b s len).1).size = (fill b + len) * 3 / 2 ∧
      fill b + len ≤ ((ensure b s len).1).size) ∧
    (len ≤ remaining b → ensure b s len = (b, s)) := by
  constructor
  · intro h
    unfold ensure
    rw [if_pos h, grow_size_eq, ensure_grow_amount _ h3, Nat.mod_eq_of_lt h3]
    unfold fill
    exact ⟨rfl, le_three_halves _⟩
  · intro h
    unfold ensure
    rw [if_neg (Nat.not_lt.2 h)]

/-- C3 counterexample: on a fresh empty buffer, ensure(2^32) triggers growth
(the free space 0 is insufficient) yet the resulting recorded capacity
2147483648 is strictly below used_length() + len = 2^32, refuting the
unrestricted claim that the capacity is at least used_length() + len and
equals (used_length() + len) * 3 / 2 = 6442450944. -/
theorem C3_counterexample :
    2 ^ 32 > remaining ((init 0 true ⟨0, []⟩).1) ∧
    ((ensure ((init 0 true ⟨0, []⟩).1) ⟨0, []⟩ (2 ^ 32)).1).size <
      fill ((init 0 true ⟨0, []⟩).1) + 2 ^ 32 := by
  decide

/-- C3 witness: the amended statement instantiated at a buffer constructed
with capacity 4 and ensure(6), which grows to (0 + 6) * 3 / 2 = 9. -/
theorem C3_ensure_growth_witness :
    (6 > remaining ((init 4 true ⟨0, []⟩).1) →
      ((ensure ((init 4 true ⟨0, []⟩).1) ⟨1, []⟩ 6).1).size =
        (fill ((init 4 true ⟨0, []⟩).1) + 6) * 3 / 2 ∧
      fill ((init 4 true ⟨0, []⟩).1) + 6 ≤
        ((ensure ((init 4 true ⟨0, []⟩).1) ⟨1, []⟩ 6).1).size) ∧
    (6 ≤ remaining ((init 4 true ⟨0, []⟩).1) →
      ensure ((init 4 true ⟨0, []⟩).1) ⟨1, []⟩ 6 = (((init 4 true ⟨0, []⟩).1), ⟨1, []⟩)) :=
  C3_ensure_growth _ _ 6 (by decide)

/-- C4: growth preserves the logical offsets of both the cursor and the
bookmark: after any grow(new_size, nocopy) the cursor offset ptr - base and
the bookmark offset mark - base are unchanged, i.e. the new cursor is
new_base + (old_cursor - old_base) and the new bookmark is
new_base + (old_bookmark - old_base). -/
theorem C4_grow_preserves_offsets (b : DynamicBuffer) (s : AllocState)
    (new_size : Nat) (nocopy : Bool) :
    ((grow b s new_size nocopy).1).ptr = b.ptr ∧
    ((grow b s new_size nocopy).1).mark = b.mark := ⟨rfl, rfl⟩

/-- C5: add_unchecked(null, len) is a complete no-op returning a null
pointer, leaving the whole state untouched, while the checked add(null, len)
still runs ensure(len) first (so it can grow the capacity) and only then
no-ops on the null data; concretely, add(null, 5) on a fresh empty buffer
grows the capacity from 0 to 7. -/
theorem C5_null_append (b : DynamicBuffer) (s : AllocState) (len : Nat) :
    add_unchecked b none len = (b, none) ∧
    add b s none len = (ensure b s len, none) ∧
    ((add ((init 0 true ⟨0, []⟩).1) ((init 0 true ⟨0, []⟩).2) none 5).1.1).size = 7 ∧
    ((init 0 true ⟨0, []⟩).1).size = 0 :=
  ⟨rfl, rfl, by decide, by decide⟩

/-- C6: release returns the pointer that was base, stores used_length()
through the out-parameter exactly when one is supplied, resets the instance
to the unallocated state (capacity 0, base, cursor and bookmark null) without
any free (the allocator state is not even an input of release), and
destroying the instance afterwards frees nothing, whatever the own flag. -/
theorem C6_release_detaches (b : DynamicBuffer) (s : AllocState) (lenp : Bool) :
    (release b lenp).1 = b.base ∧
    (release b lenp).2.1 = (if lenp then some (fill b) else none) ∧
    ((release b lenp).2.2).size = 0 ∧
    ((release b lenp).2.2).base = none ∧
    ((release b lenp).2.2).ptr = 0 ∧
    ((release b lenp).2.2).mark = 0 ∧
    dtor ((release b lenp).2.2) s = s := by
  refine ⟨rfl, rfl, rfl, rfl, rfl, rfl, ?_⟩
  cases h : b.own
  · exact if_neg (h ▸ Bool.false_ne_true)
  · show ite _ _ _ = s
    rw [show ((release b lenp).2.2).own = b.own from rfl, h,
      if_pos (rfl : (true : Bool) = true)]
    rfl

/-- C7: clear rewinds the cursor so used_length() becomes 0 and empty()
holds, while capacity, the region pointer, the region contents and the
ownership flag are unchanged; a subsequent checked append whose length fits
within the existing capacity triggers no reallocation (the allocator state,
the base pointer and the capacity are unchanged by it). -/
theorem C7_clear_reuses_capacity (b : DynamicBuffer) (s : AllocState)
    (data : Option (List Nat)) (len : Nat)
    (h1 : b.size < U32) (h2 : len ≤ b.size) :
    fill (clear b) = 0 ∧
    empty (clear b) = true ∧
    (clear b).size = b.size ∧
    (clear b).base = b.base ∧
    (clear b).data = b.data ∧
    (clear b).own = b.own ∧
    (add (clear b) s data len).1.2 = s ∧
    ((add (clear b) s data len).1.1).base = b.base ∧
    ((add (clear b) s data len).1.1).size = b.size := by
  have hr : remaining (clear b) = b.size := by
    rw [remaining_eq (clear b) (Nat.zero_le _) h1]
    rfl
  have hno : ¬ (len > remaining (clear b)) := by
    rw [hr]
    exact Nat.not_lt.2 h2
  have he : ensure (clear b) s len = (clear b, s) := by
    unfold ensure
    rw [if_neg hno]
  refine ⟨rfl, rfl, rfl, rfl, rfl, rfl, ?_, ?_, ?_⟩
  · rw [add_alloc_eq, he]
  · rw [add_base_eq, he]
    rfl
  · rw [add_size_eq, he]
    rfl

/-- C7 witness: the statement instantiated at a buffer of capacity 4 cleared
and then appended with the two bytes [1, 2]. -/
theorem C7_clear_reuses_capacity_witness :
    fill (clear ((init 4 true ⟨0, []⟩).1)) = 0 ∧
    empty (clear ((init 4 true ⟨0, []⟩).1)) = true ∧
    (clear ((init 4 true ⟨0, []⟩).1)).size = ((init 4 true ⟨0, []⟩).1).size ∧
    (clear ((init 4 true ⟨0, []⟩).1)).base = ((init 4 true ⟨0, []⟩).1).base ∧
    (clear ((init 4 true ⟨0, []⟩).1)).data = ((init 4 true ⟨0, []⟩).1).data ∧
    (clear ((init 4 true ⟨0, []⟩).1)).own = ((init 4 true ⟨0, []⟩).1).own ∧
    (add (clear ((init 4 true ⟨0, []⟩).1)) ⟨1, []⟩ (some [1, 2]) 2).1.2 = ⟨1, []⟩ ∧
    ((add (clear ((init 4 true ⟨0, []⟩).1)) ⟨1, []⟩ (some [1, 2]) 2).1.1).base =
      ((init 4 true ⟨0, []⟩).1).base ∧
    ((add (clear ((init 4 true ⟨0, []⟩).1)) ⟨1, []⟩ (some [1, 2]) 2).1.1).size =
      ((init 4 true ⟨0, []⟩).1).size :=
  C7_clear_reuses_capacity _ _ _ 2 (by decide) (by decide)

/-- C8 (amended): on a well-formed state and whenever the computed growth
amount stays below 2^32 (no uint32_t truncation), none of ensure, reserve,
add, add_unchecked, set, clear and set_mark ever decreases the recorded
capacity, while free and release reset it to exactly zero. -/
theorem C8_capacity_monotone (b : DynamicBuffer) (s : AllocState) (len : Nat)
    (data : Option (List Nat)) (nocopy : Bool) (lenp : Bool)
    (h1 : b.ptr ≤ b.size) (h2 : b.size < U32)
    (h3 : (b.ptr + len) * 3 / 2 < U32) :
    b.size ≤ ((ensure b s len).1).size ∧
    b.size ≤ ((reserve b s len nocopy).1).size ∧
    b.size ≤ ((add b s data len).1.1).size ∧
    b.size ≤ ((add_unchecked b data len).1).size ∧
    b.size ≤ ((set b s data len).1).size ∧
    b.size ≤ (clear b).size ∧
    b.size ≤ (set_mark b).size ∧
    ((free b s).1).size = 0 ∧
    ((release b lenp).2.2).size = 0 := by
  have hlen : b.ptr + len < U32 := Nat.lt_of_le_of_lt (le_three_halves _) h3
  have hlen2 : len < U32 := Nat.lt_of_le_of_lt (Nat.le_add_left len b.ptr) hlen
  refine ⟨ensure_size_ge b s len h1 h2 h3,
          reserve_size_ge b s len nocopy h1 h2 hlen, ?_, ?_, ?_, le_rfl, le_rfl,
          rfl, rfl⟩
  · rw [add_size_eq]
    exact ensure_size_ge b s len h1 h2 h3
  · cases data <;> exact le_rfl
  · rw [set_size_eq]
    exact reserve_size_ge (clear b) s len false (by simp [clear])
      (by simpa [clear] using h2) (by simpa [clear] using hlen2)

/-- C8 counterexample: on the reachable state C8bad (capacity 4294967295,
used length 4294967294), ensure(2) triggers growth and the recorded capacity
drops from 4294967295 to 2147483648, a decrease to a non-zero value,
refuting the unrestricted claim that only free and release (to exactly zero)
ever decrease the capacity. -/
theorem C8_counterexample :
    ((ensure C8bad ⟨1, []⟩ 2).1).size < C8bad.size ∧
    ((ensure C8bad ⟨1, []⟩ 2).1).size ≠ 0 := by
  decide

/-- C8 witness: the amended statement instantiated at a buffer of capacity 4
with a six-byte append, exercising the growth paths. -/
theorem C8_capacity_monotone_witness :
    ((init 4 true ⟨0, []⟩).1).size ≤
      ((ensure ((init 4 true ⟨0, []⟩).1) ⟨1, []⟩ 6).1).size ∧
    ((init 4 true ⟨0, []⟩).1).size ≤
      ((reserve ((init 4 true ⟨0, []⟩).1) ⟨1, []⟩ 6 false).1).size ∧
    ((init 4 true ⟨0, []⟩).1).size ≤
      ((add ((init 4 true ⟨0, []⟩).1) ⟨1, []⟩ (some [1, 2, 3, 4, 5, 6]) 6).1.1).size ∧
    ((init 4 true ⟨0, []⟩).1).size ≤
      ((add_unchecked ((init 4 true ⟨0, []⟩).1) (some [1, 2, 3, 4, 5, 6]) 6).1).size ∧
    ((init 4 true ⟨0, []⟩).1).size ≤
      ((set ((init 4 true ⟨0, []⟩).1) ⟨1, []⟩ (some [1, 2, 3, 4, 5, 6]) 6).1).size ∧
    ((init 4 true ⟨0, []⟩).1).size ≤ (clear ((init 4 true ⟨0, []⟩).1)).size ∧
    ((init 4 true ⟨0, []⟩).1).size ≤ (set_mark ((init 4 true ⟨0, []⟩).1)).size ∧
    ((free ((init 4 true ⟨0, []⟩).1) ⟨1, []⟩).1).size = 0 ∧
    ((release ((init 4 true ⟨0, []⟩).1) true).2.2).size = 0 :=
  C8_capacity_monotone _ _ 6 _ false true (by decide) (by decide) (by decide)

/-- C9: the capacity field is a uint32_t while grow takes a 64-bit size, so
every grow(new_size) with new_size at least 2^32 records new_size modulo 2^32
as the capacity; concretely, after ensure(2^32) on a fresh empty buffer the
recorded capacity 2147483648 is smaller than used_length() + len = 2^32 and
smaller than the 6442450944 bytes actually allocated. -/
theorem C9_size_truncates (b : DynamicBuffer) (s : AllocState) (new_size : Nat)
    (nocopy : Bool) (_h : U32 ≤ new_size) :
    ((grow b s new_size nocopy).1).size = new_size % U32 ∧
    ((ensure ((init 0 true ⟨0, []⟩).1) ⟨0, []⟩ U32).1).size <
      fill ((init 0 true ⟨0, []⟩).1) + U32 ∧
    ((ensure ((init 0 true ⟨0, []⟩).1) ⟨0, []⟩ U32).1).size <
      ((ensure ((init 0 true ⟨0, []⟩).1) ⟨0, []⟩ U32).1).data.length := by
  refine ⟨rfl, by decide, ?_⟩
  show (2147483648 : Nat) < (List.replicate 6442450944 (0 : Nat)).length
  rw [List.length_replicate]
  decide

/-- C9 witness: the statement instantiated at grow with new_size 6442450944,
whose recorded capacity is 6442450944 % 2^32 = 2147483648. -/
theorem C9_size_truncates_witness :
    U32 ≤ 6442450944 ∧
    (((grow ((init 0 true ⟨0, []⟩).1) ⟨0, []⟩ 6442450944 false).1).size =
        6442450944 % U32 ∧
      ((ensure ((init 0 true ⟨0, []⟩).1) ⟨0, []⟩ U32).1).size <
        fill ((init 0 true ⟨0, []⟩).1) + U32 ∧
      ((ensure ((init 0 true ⟨0, []⟩).1) ⟨0, []⟩ U32).1).size <
        ((ensure ((init 0 true ⟨0, []⟩).1) ⟨0, []⟩ U32).1).data.length) :=
  ⟨by decide, C9_size_truncates _ _ 6442450944 false (by decide)⟩

/-- C10: clear does not reset the bookmark: it rewinds only the cursor and
leaves mark untouched, so after set_mark followed by clear the bookmark
points at the old cursor position while the cursor is back at 0; on the
concrete buffer of capacity 4 with two bytes appended, the bookmark (offset
2) then lies strictly beyond the cursor (offset 0), so the invariant
bookmark at most cursor is not maintained. -/
theorem C10_clear_keeps_mark (b : DynamicBuffer) :
    (clear b).mark = b.mark ∧
    (clear (set_mark b)).mark = b.ptr ∧
    (clear (set_mark b)).ptr = 0 ∧
    (clear (set_mark (add_unchecked ((init 4 true ⟨0, []⟩).1) (some [7, 8]) 2).1)).mark >
      (clear (set_mark (add_unchecked ((init 4 true ⟨0, []⟩).1) (some [7, 8]) 2).1)).ptr :=
  ⟨rfl, rfl, rfl, by decide⟩

end Palo
